import Mathlib

/-!
Shallow embedding of `src/backend/main.py` (Prompt Generator API core engine).

The Python module defines a `PromptGeneratorEngine` with a static template
catalog, a randomized `generate` operation, and a deterministic `optimize`
operation.  Randomness (`random.choice`, `random.sample`, `random.uniform`,
`random.random`) is modelled by an explicit oracle: a `Draw` record per
iteration supplying every value the Python code would draw.  Python floats
are modelled as exact rationals; Python `int()` truncation is `pyInt`;
Python exceptions are the `Except` monad.
-/

namespace PromptGen

/-- Mirrors `PromptTypeEnum` (main.py lines 31-36). -/
inductive PromptTypeEnum where
  | image
  | workflow
  | automation
  | code
  | analysis
deriving DecidableEq, Repr

/-- Mirrors `PromptTypeEnum.value` (the `str` payload of each enum member). -/
def PromptTypeEnum.value : PromptTypeEnum → String
  | .image => "image"
  | .workflow => "workflow"
  | .automation => "automation"
  | .code => "code"
  | .analysis => "analysis"

/-- Mirrors `SpecificityLevel` (main.py lines 38-42). -/
inductive SpecificityLevel where
  | low
  | medium
  | high
  | extreme
deriving DecidableEq, Repr

/-- Mirrors the `specificity_levels` dict in `generate` (main.py lines 192-197). -/
def specRatio : SpecificityLevel → ℚ
  | .low => 2/10
  | .medium => 5/10
  | .high => 8/10
  | .extreme => 1

/-- Mirrors the `PromptTemplate` dataclass (main.py lines 65-71). -/
structure PromptTemplate where
  type : String
  base_structure : String
  modifiers : List String
  constraints : List String
  quality_tokens : List String
deriving DecidableEq, Repr

/-- The single image template registered by `_init_templates` (main.py lines 82-107). -/
def imageTemplate : PromptTemplate :=
  { type := "image"
    base_structure := "{subject} {action} {style} {technical}"
    modifiers :=
      [ "photorealistic", "artistic", "abstract", "hyper-detailed",
        "minimalist", "dramatic", "cinematic", "editorial",
        "vibrant", "muted tones", "high contrast", "soft lighting" ]
    constraints :=
      [ "maintain exact facial features and proportions",
        "preserve original identity and likeness",
        "keep consistent lighting and shadows",
        "match existing color palette and temperature",
        "ensure natural blending and transitions",
        "avoid distortion or warping",
        "maintain background integrity",
        "preserve skin texture and tone" ]
    quality_tokens :=
      [ "8k resolution", "professional photography", "studio lighting",
        "bokeh", "shallow depth of field", "golden hour",
        "sharp focus", "HDR", "award-winning", "magazine quality" ] }

/-- The single workflow template registered by `_init_templates` (main.py lines 108-132). -/
def workflowTemplate : PromptTemplate :=
  { type := "workflow"
    base_structure := "Create a {workflow_type} that {action} with {requirements}"
    modifiers :=
      [ "automated pipeline", "approval process", "data transformation",
        "notification system", "scheduled task", "event-driven workflow",
        "multi-stage process", "conditional routing", "parallel execution" ]
    constraints :=
      [ "error handling for each step",
        "rollback mechanism on failure",
        "logging and audit trail",
        "idempotent operations",
        "timeout handling",
        "retry logic with exponential backoff",
        "state persistence",
        "concurrency control" ]
    quality_tokens :=
      [ "production-ready", "scalable", "maintainable",
        "well-documented", "testable", "monitored", "resilient" ] }

/-- The single automation template registered by `_init_templates` (main.py lines 133-157). -/
def automationTemplate : PromptTemplate :=
  { type := "automation"
    base_structure := "Automate {task} that {condition} and {output}"
    modifiers :=
      [ "triggers when", "runs daily at", "monitors continuously",
        "responds to events", "processes batch", "streams data",
        "executes on schedule", "reacts to changes" ]
    constraints :=
      [ "handle edge cases and null values",
        "validate input data",
        "graceful degradation",
        "rate limiting and throttling",
        "concurrent execution safety",
        "data consistency guarantees",
        "transaction management",
        "resource cleanup" ]
    quality_tokens :=
      [ "reliable", "fault-tolerant", "observable",
        "recoverable", "performant", "secure" ] }

/-- The single code template registered by `_init_templates` (main.py lines 158-182). -/
def codeTemplate : PromptTemplate :=
  { type := "code"
    base_structure := "Write {language} code that {functionality} with {requirements}"
    modifiers :=
      [ "class implementation", "API endpoint", "data processor",
        "utility function", "CLI tool", "background service",
        "database layer", "service integration", "message handler" ]
    constraints :=
      [ "type hints/annotations",
        "error handling with specific exceptions",
        "input validation",
        "unit tests included",
        "docstrings/comments for complex logic",
        "no hardcoded values",
        "configuration externalized",
        "logging instrumentation" ]
    quality_tokens :=
      [ "production-grade", "efficient", "readable",
        "maintainable", "well-tested", "documented", "SOLID principles" ] }

/-- Mirrors `self.templates.get(prompt_type, [])`: the dict built by
`_init_templates` has no entry for `ANALYSIS`, so that category yields `[]`
(main.py lines 79-183 and 187). -/
def templatesFor : PromptTypeEnum → List PromptTemplate
  | .image => [imageTemplate]
  | .workflow => [workflowTemplate]
  | .automation => [automationTemplate]
  | .code => [codeTemplate]
  | .analysis => []

/-! ## Python primitive models -/

/-- Python `int(q)` on an exact rational: truncation toward zero. -/
def pyInt (q : ℚ) : ℤ :=
  if 0 ≤ q then ⌊q⌋ else ⌈q⌉

/-- Model of `random.choice(l)`: the oracle supplies an arbitrary natural `i`
and the choice is element `i % l.length`.  `dflt` is returned only on an empty
list (where CPython would raise `IndexError`); every call site below passes a
list that is provably non-empty. -/
def pyChoice (l : List α) (i : Nat) (dflt : α) : α :=
  l.getD (i % l.length) dflt

/-- Selection core of `random.sample`: pick `k` elements one at a time, each
time removing the picked element, with the oracle stream `sel` deciding each
pick.  Only meaningful when `k ≤ l.length` (enforced by `randomSample`). -/
def sampleAux : Nat → List α → List Nat → List α
  | 0, _, _ => []
  | _ + 1, [], _ => []
  | k + 1, a :: as, sel =>
    let i := sel.headD 0 % (a :: as).length
    (a :: as).getD i a :: sampleAux k ((a :: as).eraseIdx i) (sel.drop 1)

/-- Model of `random.sample(l, k)`: CPython raises
`ValueError: Sample larger than population` when `k > len(l)`; modelled as
`none`.  Otherwise `k` distinct positions of `l` are returned. -/
def randomSample (l : List α) (k : Nat) (sel : List Nat) : Option (List α) :=
  if k ≤ l.length then some (sampleAux k l sel) else none

/-- Python's `str.capitalize()`: first character uppercased, the rest
lowercased. -/
def pyCapitalize (s : String) : String :=
  match s.data with
  | [] => ""
  | c :: cs => String.mk (c.toUpper :: cs.map Char.toLower)

/-- Does `pat` occur at the start of `s`?  (Character-list core of Python's
substring test.) -/
def charListStart : List Char → List Char → Bool
  | [], _ => true
  | _ :: _, [] => false
  | a :: as, b :: bs => a == b && charListStart as bs

/-- Does `pat` occur anywhere inside `s`?  (Character-list core of Python's
`pat in s`.) -/
def charListSub : List Char → List Char → Bool
  | pat, [] => pat.isEmpty
  | pat, c :: cs => charListStart pat (c :: cs) || charListSub pat cs

/-- Python `pat in s` on strings. -/
def strContainsB (s pat : String) : Bool :=
  charListSub pat.data s.data

/-- Python's `str.lower()` (character-wise, as the source only feeds it ASCII). -/
def strLower (s : String) : String :=
  String.mk (s.data.map Char.toLower)

/-- Python's `str.strip()`: remove leading and trailing whitespace. -/
def pyStrip (s : String) : String :=
  String.mk (((s.data.dropWhile Char.isWhitespace).reverse.dropWhile Char.isWhitespace).reverse)

/-! ## The randomness oracle for one `generate` iteration -/

/-- One iteration of `generate` consumes these random draws, in source order:
`random.choice(templates)` (`tmplIdx`), `random.uniform(0.3, 0.7)` (`u`),
`random.sample(modifiers, …)` (`modSel`), `random.sample(constraints, …)`
(`conSel`), `random.random()` (`r01`), `random.sample(quality_tokens, …)`
(`qualSel`), then the assembler's own `random.choice` calls (`subjIdx`,
`actIdx` for image; `taskIdx`, `condIdx` for workflow/automation; `langIdx`,
`funcIdx`, `modIdx` for code). -/
structure Draw where
  tmplIdx : Nat
  u : ℚ
  modSel : List Nat
  conSel : List Nat
  r01 : ℚ
  qualSel : List Nat
  subjIdx : Nat
  actIdx : Nat
  taskIdx : Nat
  condIdx : Nat
  langIdx : Nat
  funcIdx : Nat
  modIdx : Nat

/-- `random.uniform(0.3, 0.7)` yields a value in `[0.3, 0.7]` and
`random.random()` yields a value in `[0, 1)`. -/
def validDraw (d : Draw) : Prop :=
  3/10 ≤ d.u ∧ d.u ≤ 7/10 ∧ 0 ≤ d.r01 ∧ d.r01 < 1

instance : DecidablePred validDraw := fun d => by
  unfold validDraw; infer_instance

/-- Errors `generate` can raise: `ValueError(f"No templates for {prompt_type}")`
(main.py line 189) and the `ValueError` of an oversized `random.sample`. -/
inductive GenError where
  | unknownCategory (pt : PromptTypeEnum)
  | sampleTooLarge
deriving DecidableEq, Repr

/-! ## Generation (main.py lines 185-298) -/

/-- `num_modifiers = max(1, int(len(template.modifiers) * constraint_ratio *
random.uniform(0.3, 0.7)))` (main.py line 205). -/
def numModifiers (t : PromptTemplate) (r u : ℚ) : Nat :=
  (max 1 (pyInt ((t.modifiers.length : ℚ) * r * u))).toNat

/-- `num_constraints = int(len(template.constraints) * constraint_ratio)`
(main.py line 208). -/
def numConstraints (t : PromptTemplate) (r : ℚ) : Nat :=
  (pyInt ((t.constraints.length : ℚ) * r)).toNat

/-- `num_quality = max(1, int(len(template.quality_tokens) * 0.4))`
(main.py line 212). -/
def numQuality (t : PromptTemplate) : Nat :=
  (max 1 (pyInt ((t.quality_tokens.length : ℚ) * (4/10)))).toNat

/-- `_assemble_image_prompt` (main.py lines 229-254). -/
def assembleImagePrompt (modifiers constraints quality : List String) (d : Draw) : String :=
  let subjects :=
    [ "portrait", "landscape", "product shot", "architectural detail",
      "street photography", "macro photography", "wildlife", "fashion editorial",
      "food photography", "interior design", "nature scene", "urban exploration" ]
  let actions :=
    [ "showcasing", "highlighting", "emphasizing", "capturing",
      "depicting", "illustrating", "featuring", "presenting" ]
  let subject := pyChoice subjects d.subjIdx ""
  let action := pyChoice actions d.actIdx ""
  let style :=
    if 2 ≤ modifiers.length then String.intercalate ", " (modifiers.take 2)
    else match modifiers with
      | m :: _ => m
      | [] => "realistic"
  let prompt := pyCapitalize style ++ " " ++ subject ++ " " ++ action ++ " the subject"
  let prompt :=
    if constraints ≠ [] then
      prompt ++ (". Must preserve: " ++ String.intercalate ", " (constraints.take 3))
    else prompt
  if quality ≠ [] then
    prompt ++ (". Quality requirements: " ++ String.intercalate ", " quality)
  else prompt

/-- `_assemble_workflow_prompt` (main.py lines 256-275); the `template`
parameter is accepted and unused, as in the source. -/
def assembleWorkflowPrompt (_template : PromptTemplate)
    (modifiers constraints quality : List String) (d : Draw) : String :=
  let tasks :=
    [ "data ingestion", "report generation", "approval routing",
      "notification dispatch", "backup process", "sync operation",
      "data validation", "record processing", "file transformation" ]
  let task := pyChoice tasks d.taskIdx ""
  let condition := if modifiers ≠ [] then pyChoice modifiers d.condIdx "" else "on trigger"
  let prompt := "Create " ++ task ++ " workflow that " ++ condition
  let prompt :=
    if constraints ≠ [] then
      prompt ++ (". Requirements: " ++ String.intercalate ", " (constraints.take 4))
    else prompt
  if quality ≠ [] then
    prompt ++ (". Standards: " ++ String.intercalate ", " quality)
  else prompt

/-- `_assemble_code_prompt` (main.py lines 277-298); the `template` parameter
is accepted and unused, as in the source. -/
def assembleCodePrompt (_template : PromptTemplate)
    (modifiers constraints quality : List String) (d : Draw) : String :=
  let languages := ["Python", "JavaScript", "TypeScript", "Go", "Rust", "Java"]
  let functionality :=
    [ "parses CSV files", "makes HTTP requests", "processes queue messages",
      "validates user input", "generates reports", "manages database connections",
      "handles file uploads", "implements caching", "processes webhooks" ]
  let lang := pyChoice languages d.langIdx ""
  let func := pyChoice functionality d.funcIdx ""
  let modifier := if modifiers ≠ [] then pyChoice modifiers d.modIdx "" else "function"
  let prompt := "Write " ++ lang ++ " " ++ modifier ++ " that " ++ func
  let prompt :=
    if constraints ≠ [] then
      prompt ++ (". Must include: " ++ String.intercalate ", " (constraints.take 4))
    else prompt
  if quality ≠ [] then
    prompt ++ (". Quality: " ++ String.intercalate ", " quality)
  else prompt

/-- One iteration of the `for _ in range(count)` loop in `generate`
(main.py lines 201-225), for a non-empty template list `t :: ts`. -/
def genOne (pt : PromptTypeEnum) (t : PromptTemplate) (ts : List PromptTemplate)
    (r : ℚ) (d : Draw) : Except GenError String :=
  let template := pyChoice (t :: ts) d.tmplIdx t
  match randomSample template.modifiers (numModifiers template r d.u) d.modSel with
  | none => .error .sampleTooLarge
  | some selectedModifiers =>
    let nc := numConstraints template r
    match (if 0 < nc then randomSample template.constraints nc d.conSel else some []) with
    | none => .error .sampleTooLarge
    | some selectedConstraints =>
      match (if d.r01 < r then
               randomSample template.quality_tokens (numQuality template) d.qualSel
             else some []) with
      | none => .error .sampleTooLarge
      | some selectedQuality =>
        .ok (if pt = .image then
               assembleImagePrompt selectedModifiers selectedConstraints selectedQuality d
             else if pt = .workflow ∨ pt = .automation then
               assembleWorkflowPrompt template selectedModifiers selectedConstraints selectedQuality d
             else
               assembleCodePrompt template selectedModifiers selectedConstraints selectedQuality d)

/-- Runs `f 0, f 1, …, f (n-1)` left to right, stopping at the first error,
collecting results in order — the `prompts.append` loop. -/
def genMany (f : Nat → Except GenError String) : Nat → Except GenError (List String)
  | 0 => .ok []
  | n + 1 =>
    match genMany f n with
    | .error e => .error e
    | .ok ps =>
      match f n with
      | .error e => .error e
      | .ok p => .ok (ps ++ [p])

/-- `PromptGeneratorEngine.generate` (main.py lines 185-227), with the random
oracle `draws` supplying iteration `i`'s draws. -/
def generate (pt : PromptTypeEnum) (count : Nat) (spec : SpecificityLevel)
    (draws : Nat → Draw) : Except GenError (List String) :=
  match templatesFor pt with
  | [] => .error (.unknownCategory pt)
  | t :: ts => genMany (fun i => genOne pt t ts (specRatio spec) (draws i)) count

/-! ## Optimizer (main.py lines 300-418) -/

/-- The image keyword list of `_detect_prompt_type` (main.py line 326). -/
def imageKeywords : List String :=
  ["photo", "image", "picture", "hair", "face", "look", "style", "portrait", "background"]

/-- The workflow keyword list of `_detect_prompt_type` (main.py line 327). -/
def workflowKeywords : List String :=
  ["workflow", "process", "pipeline", "approval", "automate"]

/-- The code keyword list of `_detect_prompt_type` (main.py line 328). -/
def codeKeywords : List String :=
  ["code", "function", "script", "program", "write", "implement", "algorithm"]

/-- `any(kw in prompt_lower for kw in kws)` where `prompt_lower = prompt.lower()`. -/
def anyKeyword (kws : List String) (prompt : String) : Bool :=
  kws.any (fun kw => strContainsB (strLower prompt) kw)

/-- `_detect_prompt_type` (main.py lines 322-337). -/
def detectPromptType (prompt : String) : PromptTypeEnum :=
  if anyKeyword imageKeywords prompt then .image
  else if anyKeyword workflowKeywords prompt then .workflow
  else if anyKeyword codeKeywords prompt then .code
  else .image

/-- `_find_action` (main.py lines 346-351): first of the ordered action list
found as a substring of the lowercased prompt; `"create"` if none. -/
def findAction (prompt : String) : String :=
  let actions := ["give", "make", "create", "change", "modify", "show", "generate", "build"]
  match actions.find? (fun a => strContainsB (strLower prompt) a) with
  | some a => a
  | none => "create"

/-- `_find_target` (main.py lines 353-358). -/
def findTarget (prompt : String) : String :=
  let targets := ["hair", "hairstyle", "haircut", "photo", "image", "code", "workflow", "background"]
  match targets.find? (fun t => strContainsB (strLower prompt) t) with
  | some t => t
  | none => "item"

/-- The intent dict of `_extract_intent` (main.py lines 339-344). -/
structure Intent where
  action : String
  target : String

/-- `_extract_intent` (main.py lines 339-344). -/
def extractIntent (prompt : String) : Intent :=
  { action := findAction prompt, target := findTarget prompt }

/-- The `style_map` of `_extract_hair_style` (main.py lines 383-392), in dict
insertion order. -/
def styleMap : List (String × String) :=
  [ ("bowl cut", "a classic bowl cut: straight, even fringe across the forehead, rounded silhouette around the head, clean and symmetrical"),
    ("pixie", "a modern pixie cut: short on sides and back, slightly longer on top, textured and layered"),
    ("bob", "a sleek bob: chin-length, blunt cut, straight and polished"),
    ("mullet", "a mullet: short in front and on top, long in the back, with clear distinction between lengths"),
    ("undercut", "an undercut: shaved or very short sides and back, longer hair on top with clear contrast"),
    ("fade", "a fade: gradual transition from short to longer hair, clean taper on sides and back"),
    ("buzz", "a buzz cut: uniform short length all around, clean and low-maintenance"),
    ("crew cut", "a crew cut: short on sides, slightly longer on top, classic military style") ]

/-- `_extract_hair_style` (main.py lines 381-398): first `style_map` entry
whose key occurs in the lowercased prompt; generic fallback otherwise. -/
def extractHairStyle (prompt : String) : String :=
  match styleMap.find? (fun p => strContainsB (strLower prompt) p.1) with
  | some p => p.2
  | none => "the requested hairstyle with appropriate length, shape, and styling details"

/-- `_optimize_image_prompt` (main.py lines 360-379). -/
def optimizeImagePrompt (vague : String) (intent : Intent) : String :=
  let base : List String :=
    if strContainsB (strLower vague) "photo" || strContainsB (strLower vague) "image" then
      ["Using the uploaded photo, keep the person or subject\x27s face, identity, and proportions exactly the same"]
    else []
  let base :=
    if strContainsB (strLower vague) "hair" || strContainsB (strLower vague) "haircut" then
      base ++ [ "Change only their hairstyle to " ++ extractHairStyle vague,
                "The haircut should look realistic and naturally blended with the existing hair texture, color, lighting, and head shape" ]
    else if strContainsB (strLower vague) "background" then
      base ++ [ "Change only the background while preserving the subject completely",
                "Ensure seamless integration with proper lighting, shadows, and depth matching" ]
    else
      base ++ ["Modify the " ++ intent.target ++ " while preserving all other aspects"]
  let base := base ++ ["Do not alter facial features, expression, age, or any unspecified elements"]
  String.intercalate ". " base

/-- `_optimize_workflow_prompt` (main.py lines 400-406). -/
def optimizeWorkflowPrompt (_vague : String) (intent : Intent) : String :=
  String.intercalate ". "
    [ "Create a production-ready workflow that " ++ intent.action ++ "s " ++ intent.target,
      "Include: error handling for each step, rollback mechanism on failure, logging and audit trail, retry logic with exponential backoff",
      "Ensure idempotent operations, timeout handling, monitoring hooks, and state persistence" ]

/-- `_optimize_code_prompt` (main.py lines 408-414). -/
def optimizeCodePrompt (_vague : String) (intent : Intent) : String :=
  String.intercalate ". "
    [ "Write production-grade code that " ++ intent.action ++ "s " ++ intent.target,
      "Must include: type hints/annotations, comprehensive error handling with specific exceptions, input validation, unit tests, docstrings for complex logic",
      "No hardcoded values, configuration externalized, efficient algorithm choices, clear variable names, logging instrumentation" ]

/-- `_optimize_generic_prompt` (main.py lines 416-418). -/
def optimizeGenericPrompt (vague : String) (_intent : Intent) : String :=
  "Please provide a detailed, specific implementation of: " ++ vague ++
    ". Include all necessary constraints, requirements, and quality standards for production use."

/-- `PromptGeneratorEngine.optimize` (main.py lines 300-320).  `context = None`
and `context = ""` both fail Python's `if context:` truthiness test.  Returns
`(optimized.strip(), prompt_type.value)`. -/
def optimize (vague_prompt : String) (context : Option String) : String × String :=
  let pt := detectPromptType vague_prompt
  let optimized :=
    match context with
    | some c => if c ≠ "" then c ++ ". " else ""
    | none => ""
  let intent := extractIntent vague_prompt
  let optimized := optimized ++
    (if pt = .image then optimizeImagePrompt vague_prompt intent
     else if pt = .workflow then optimizeWorkflowPrompt vague_prompt intent
     else if pt = .code then optimizeCodePrompt vague_prompt intent
     else optimizeGenericPrompt vague_prompt intent)
  (pyStrip optimized, pt.value)

/-- `optimize` lifted to the same random-oracle signature as `generate`: the
source body of `optimize` makes no call into `random`, so the oracle argument
is unused.  This lets run-to-run determinism be stated as independence from
the oracle. -/
def optimizeRun (_draws : Nat → Draw) (vague_prompt : String)
    (context : Option String) : String × String :=
  optimize vague_prompt context

/-- A concrete draw record used to instantiate universally quantified
results on explicit inputs. -/
def d0 : Draw :=
  { tmplIdx := 0, u := 1/2, modSel := [], conSel := [], r01 := 0, qualSel := [],
    subjIdx := 0, actIdx := 0, taskIdx := 0, condIdx := 0,
    langIdx := 0, funcIdx := 0, modIdx := 0 }

/-! ## Helper lemmas -/

theorem pyInt_le_natCast (q : ℚ) (n : ℕ) (h : q ≤ (n : ℚ)) : pyInt q ≤ (n : ℤ) := by
  unfold pyInt
  split
  · calc ⌊q⌋ ≤ ⌊(n : ℚ)⌋ := Int.floor_le_floor h
      _ = (n : ℤ) := Int.floor_natCast n
  · exact Int.ceil_le.mpr (by exact_mod_cast h)

theorem len_mul_ratio_le (n : ℕ) (r u : ℚ) (hr0 : 0 ≤ r) (hr1 : r ≤ 1)
    (hu0 : 0 ≤ u) (hu1 : u ≤ 1) : (n : ℚ) * r * u ≤ (n : ℚ) := by
  rw [mul_assoc]
  exact mul_le_of_le_one_right (by positivity) (mul_le_one₀ hr1 hu0 hu1)

theorem numModifiers_pos (t : PromptTemplate) (r u : ℚ) : 1 ≤ numModifiers t r u := by
  unfold numModifiers
  have h : (1 : ℤ) ≤ max 1 (pyInt ((t.modifiers.length : ℚ) * r * u)) := le_max_left _ _
  omega

theorem numModifiers_le (t : PromptTemplate) (r u : ℚ) (h1 : 1 ≤ t.modifiers.length)
    (hr0 : 0 ≤ r) (hr1 : r ≤ 1) (hu0 : 0 ≤ u) (hu1 : u ≤ 1) :
    numModifiers t r u ≤ t.modifiers.length := by
  unfold numModifiers
  rw [Int.toNat_le]
  exact max_le (by exact_mod_cast h1)
    (pyInt_le_natCast _ _ (len_mul_ratio_le _ r u hr0 hr1 hu0 hu1))

theorem numConstraints_le (t : PromptTemplate) (r : ℚ) (hr0 : 0 ≤ r) (hr1 : r ≤ 1) :
    numConstraints t r ≤ t.constraints.length := by
  unfold numConstraints
  rw [Int.toNat_le]
  exact pyInt_le_natCast _ _
    (mul_le_of_le_one_right (by positivity) hr1)

theorem numQuality_pos (t : PromptTemplate) : 1 ≤ numQuality t := by
  unfold numQuality
  have h : (1 : ℤ) ≤ max 1 (pyInt ((t.quality_tokens.length : ℚ) * (4/10))) := le_max_left _ _
  omega

theorem numQuality_le (t : PromptTemplate) (h1 : 1 ≤ t.quality_tokens.length) :
    numQuality t ≤ t.quality_tokens.length := by
  unfold numQuality
  rw [Int.toNat_le]
  exact max_le (by exact_mod_cast h1)
    (pyInt_le_natCast _ _ (mul_le_of_le_one_right (by positivity) (by norm_num)))

theorem sampleAux_length (k : Nat) :
    ∀ (l : List α) (sel : List Nat), k ≤ l.length → (sampleAux k l sel).length = k := by
  induction k with
  | zero => intro l sel _; rfl
  | succ n ih =>
    intro l sel h
    match l with
    | [] => simp at h
    | a :: as =>
      have hi : sel.headD 0 % (a :: as).length < (a :: as).length :=
        Nat.mod_lt _ (by simp)
      have herase : ((a :: as).eraseIdx (sel.headD 0 % (a :: as).length)).length
          = as.length := by
        rw [List.length_eraseIdx, if_pos hi]
        simp
      have hstep : sampleAux (n + 1) (a :: as) sel
          = (a :: as).getD (sel.headD 0 % (a :: as).length) a
            :: sampleAux n ((a :: as).eraseIdx (sel.headD 0 % (a :: as).length))
                (sel.drop 1) := rfl
      have hle : n ≤ ((a :: as).eraseIdx (sel.headD 0 % (a :: as).length)).length := by
        rw [herase]
        simp only [List.length_cons] at h
        omega
      rw [hstep, List.length_cons, ih _ _ hle]

theorem randomSample_eq_some (l : List α) (k : Nat) (sel : List Nat) (h : k ≤ l.length) :
    randomSample l k sel = some (sampleAux k l sel) := by
  unfold randomSample
  rw [if_pos h]

theorem pyChoice_mem (t : α) (ts : List α) (i : Nat) : pyChoice (t :: ts) i t ∈ t :: ts := by
  unfold pyChoice
  have h : i % (t :: ts).length < (t :: ts).length := Nat.mod_lt _ (by simp)
  rw [List.getD_eq_getElem?_getD, List.getElem?_eq_getElem h]
  exact List.getElem_mem h

theorem catalog_lengths (pt : PromptTypeEnum) (tm : PromptTemplate)
    (h : tm ∈ templatesFor pt) :
    1 ≤ tm.modifiers.length ∧ 1 ≤ tm.constraints.length ∧ 1 ≤ tm.quality_tokens.length := by
  cases pt <;> simp [templatesFor] at h <;> subst h <;>
    exact ⟨by decide, by decide, by decide⟩

theorem specRatio_nonneg (spec : SpecificityLevel) : 0 ≤ specRatio spec := by
  cases spec <;> norm_num [specRatio]

theorem specRatio_le_one (spec : SpecificityLevel) : specRatio spec ≤ 1 := by
  cases spec <;> norm_num [specRatio]

theorem string_len_zero_eq (s : String) (h : s.length = 0) : s = "" := by
  cases s with
  | mk data =>
    cases data with
    | nil => rfl
    | cons c cs => simp [String.length] at h

theorem append_ne_empty_right (a b : String) (h : b ≠ "") : a ++ b ≠ "" := by
  intro he
  apply h
  apply string_len_zero_eq
  have := congrArg String.length he
  rw [String.length_append] at this
  simpa using Nat.eq_zero_of_add_eq_zero_left (by simpa using this)

theorem append_ne_empty_left (a b : String) (h : a ≠ "") : a ++ b ≠ "" := by
  intro he
  apply h
  apply string_len_zero_eq
  have := congrArg String.length he
  rw [String.length_append] at this
  exact Nat.eq_zero_of_add_eq_zero_right (by simpa using this)

theorem charListSub_nil (s : List Char) : charListSub [] s = true := by
  cases s <;> simp [charListSub, charListStart, List.isEmpty]

theorem charListStart_append (p r : List Char) : charListStart p (p ++ r) = true := by
  induction p with
  | nil => rfl
  | cons a as ih => simp [charListStart, ih]

theorem charListSub_self_append (p r : List Char) : charListSub p (p ++ r) = true := by
  cases p with
  | nil => exact charListSub_nil r
  | cons a as =>
    show charListSub (a :: as) (a :: (as ++ r)) = true
    unfold charListSub
    rw [Bool.or_eq_true]
    exact Or.inl (charListStart_append (a :: as) r)

theorem charListSub_append_left (p l s : List Char) (h : charListSub p s = true) :
    charListSub p (l ++ s) = true := by
  induction l with
  | nil => exact h
  | cons c cs ih =>
    show charListSub p (c :: (cs ++ s)) = true
    unfold charListSub
    rw [Bool.or_eq_true]
    exact Or.inr ih

theorem strContainsB_append_middle (a tag q : String) :
    strContainsB (a ++ (tag ++ q)) tag = true := by
  unfold strContainsB
  rw [String.data_append, String.data_append]
  exact charListSub_append_left _ _ _ (charListSub_self_append _ _)

theorem genMany_ok (f : Nat → Except GenError String) (P : String → Prop) (n : Nat)
    (H : ∀ i, i < n → ∃ s, f i = .ok s ∧ P s) :
    ∃ l, genMany f n = .ok l ∧ l.length = n ∧ ∀ s ∈ l, P s := by
  induction n with
  | zero => exact ⟨[], rfl, rfl, by simp⟩
  | succ n ih =>
    obtain ⟨l, hl, hlen, hP⟩ := ih (fun i hi => H i (Nat.lt_succ_of_lt hi))
    obtain ⟨s, hs, hPs⟩ := H n (Nat.lt_succ_self n)
    refine ⟨l ++ [s], ?_, by simp [hlen], ?_⟩
    · show genMany f (n + 1) = .ok (l ++ [s])
      unfold genMany
      rw [hl, hs]
    · intro x hx
      rcases List.mem_append.mp hx with hx | hx
      · exact hP x hx
      · rw [List.mem_singleton.mp hx]
        exact hPs

theorem assembleImagePrompt_ne_empty (mods cons qual : List String) (d : Draw) :
    assembleImagePrompt mods cons qual d ≠ "" := by
  unfold assembleImagePrompt
  dsimp only
  split_ifs <;>
    (repeat
      first
        | exact append_ne_empty_right _ _ (by decide)
        | apply append_ne_empty_left)

theorem assembleWorkflowPrompt_ne_empty (tm : PromptTemplate) (mods cons qual : List String)
    (d : Draw) : assembleWorkflowPrompt tm mods cons qual d ≠ "" := by
  unfold assembleWorkflowPrompt
  dsimp only
  split_ifs <;>
    (repeat
      first
        | exact append_ne_empty_right _ _ (by decide)
        | apply append_ne_empty_left)

theorem assembleCodePrompt_ne_empty (tm : PromptTemplate) (mods cons qual : List String)
    (d : Draw) : assembleCodePrompt tm mods cons qual d ≠ "" := by
  unfold assembleCodePrompt
  dsimp only
  split_ifs <;>
    (repeat
      first
        | exact append_ne_empty_right _ _ (by decide)
        | apply append_ne_empty_left)

theorem assembleWorkflowPrompt_standards (tm : PromptTemplate) (mods cons qual : List String)
    (d : Draw) (h : qual ≠ []) :
    strContainsB (assembleWorkflowPrompt tm mods cons qual d) ". Standards: " = true := by
  unfold assembleWorkflowPrompt
  dsimp only
  rw [if_pos h]
  exact strContainsB_append_middle _ _ _

theorem assembleCodePrompt_quality (tm : PromptTemplate) (mods cons qual : List String)
    (d : Draw) (h : qual ≠ []) :
    strContainsB (assembleCodePrompt tm mods cons qual d) ". Quality: " = true := by
  unfold assembleCodePrompt
  dsimp only
  rw [if_pos h]
  exact strContainsB_append_middle _ _ _

set_option maxHeartbeats 1600000 in
theorem genOne_shape (pt : PromptTypeEnum) (t : PromptTemplate) (ts : List PromptTemplate)
    (r : ℚ) (d : Draw)
    (hcat : ∀ tm ∈ t :: ts,
      1 ≤ tm.modifiers.length ∧ 1 ≤ tm.constraints.length ∧ 1 ≤ tm.quality_tokens.length)
    (hr0 : 0 ≤ r) (hr1 : r ≤ 1) (hu0 : 0 ≤ d.u) (hu1 : d.u ≤ 1) :
    ∃ mods cons qual,
      1 ≤ mods.length ∧
      (d.r01 < r → 1 ≤ qual.length) ∧
      genOne pt t ts r d = .ok
        (if pt = .image then assembleImagePrompt mods cons qual d
         else if pt = .workflow ∨ pt = .automation then
           assembleWorkflowPrompt (pyChoice (t :: ts) d.tmplIdx t) mods cons qual d
         else
           assembleCodePrompt (pyChoice (t :: ts) d.tmplIdx t) mods cons qual d) := by
  obtain ⟨hm, hc, hq⟩ := hcat _ (pyChoice_mem t ts d.tmplIdx)
  have hnm : numModifiers (pyChoice (t :: ts) d.tmplIdx t) r d.u
      ≤ (pyChoice (t :: ts) d.tmplIdx t).modifiers.length :=
    numModifiers_le _ r d.u hm hr0 hr1 hu0 hu1
  have hnc : numConstraints (pyChoice (t :: ts) d.tmplIdx t) r
      ≤ (pyChoice (t :: ts) d.tmplIdx t).constraints.length :=
    numConstraints_le _ r hr0 hr1
  have hnq : numQuality (pyChoice (t :: ts) d.tmplIdx t)
      ≤ (pyChoice (t :: ts) d.tmplIdx t).quality_tokens.length :=
    numQuality_le _ hq
  refine ⟨sampleAux (numModifiers (pyChoice (t :: ts) d.tmplIdx t) r d.u)
            (pyChoice (t :: ts) d.tmplIdx t).modifiers d.modSel,
          (if 0 < numConstraints (pyChoice (t :: ts) d.tmplIdx t) r then
             sampleAux (numConstraints (pyChoice (t :: ts) d.tmplIdx t) r)
               (pyChoice (t :: ts) d.tmplIdx t).constraints d.conSel
           else []),
          (if d.r01 < r then
             sampleAux (numQuality (pyChoice (t :: ts) d.tmplIdx t))
               (pyChoice (t :: ts) d.tmplIdx t).quality_tokens d.qualSel
           else []), ?_, ?_, ?_⟩
  · rw [sampleAux_length _ _ _ hnm]
    exact numModifiers_pos _ r d.u
  · intro hlt
    rw [if_pos hlt, sampleAux_length _ _ _ hnq]
    exact numQuality_pos _
  · simp only [genOne]
    by_cases hcpos : 0 < numConstraints (pyChoice (t :: ts) d.tmplIdx t) r
    · by_cases hqlt : d.r01 < r
      · simp only [if_pos hcpos, if_pos hqlt, randomSample_eq_some _ _ _ hnm,
          randomSample_eq_some _ _ _ hnc, randomSample_eq_some _ _ _ hnq]
      · simp only [if_pos hcpos, if_neg hqlt, randomSample_eq_some _ _ _ hnm,
          randomSample_eq_some _ _ _ hnc]
    · by_cases hqlt : d.r01 < r
      · simp only [if_neg hcpos, if_pos hqlt, randomSample_eq_some _ _ _ hnm,
          randomSample_eq_some _ _ _ hnq]
      · simp only [if_neg hcpos, if_neg hqlt, randomSample_eq_some _ _ _ hnm]

theorem genOne_ok_ne_empty (pt : PromptTypeEnum) (t : PromptTemplate)
    (ts : List PromptTemplate) (spec : SpecificityLevel) (d : Draw) (hd : validDraw d)
    (hcat : ∀ tm ∈ t :: ts,
      1 ≤ tm.modifiers.length ∧ 1 ≤ tm.constraints.length ∧ 1 ≤ tm.quality_tokens.length) :
    ∃ s, genOne pt t ts (specRatio spec) d = .ok s ∧ s ≠ "" := by
  obtain ⟨mods, cons, qual, hm, hqlen, heq⟩ :=
    genOne_shape pt t ts (specRatio spec) d hcat (specRatio_nonneg spec) (specRatio_le_one spec)
      (le_trans (by norm_num) hd.1) (le_trans hd.2.1 (by norm_num))
  refine ⟨_, heq, ?_⟩
  split_ifs
  · exact assembleImagePrompt_ne_empty _ _ _ _
  · exact assembleWorkflowPrompt_ne_empty _ _ _ _ _
  · exact assembleCodePrompt_ne_empty _ _ _ _ _

theorem generate_eq_genMany (pt : PromptTypeEnum) (t : PromptTemplate)
    (ts : List PromptTemplate) (hT : templatesFor pt = t :: ts) (count : Nat)
    (spec : SpecificityLevel) (draws : Nat → Draw) :
    generate pt count spec draws
      = genMany (fun i => genOne pt t ts (specRatio spec) (draws i)) count := by
  unfold generate
  rw [hT]

/-! ## Claims -/

/-- C1: for every valid category in {image, workflow, automation, code}, count in
[1, 1000] and any specificity, `generate` succeeds with exactly `count` strings,
each non-empty, for every sequence of valid random draws. -/
theorem generate_returns_count_nonempty (pt : PromptTypeEnum)
    (hpt : pt = .image ∨ pt = .workflow ∨ pt = .automation ∨ pt = .code)
    (count : Nat) (hc1 : 1 ≤ count) (hc2 : count ≤ 1000)
    (spec : SpecificityLevel) (draws : Nat → Draw) (hd : ∀ i, validDraw (draws i)) :
    ∃ l, generate pt count spec draws = .ok l ∧ l.length = count ∧ ∀ s ∈ l, s ≠ "" := by
  obtain ⟨t, ts, hT⟩ : ∃ t ts, templatesFor pt = t :: ts := by
    rcases hpt with h | h | h | h <;> subst h <;> exact ⟨_, _, rfl⟩
  have hcat : ∀ tm ∈ t :: ts,
      1 ≤ tm.modifiers.length ∧ 1 ≤ tm.constraints.length ∧ 1 ≤ tm.quality_tokens.length := by
    intro tm htm
    exact catalog_lengths pt tm (by rw [hT]; exact htm)
  rw [generate_eq_genMany pt t ts hT count spec draws]
  exact genMany_ok _ (fun s => s ≠ "") count
    (fun i _ => genOne_ok_ne_empty pt t ts spec (draws i) (hd i) hcat)

/-- Witness for C1 at category image, count 3, medium specificity, constant draws. -/
theorem generate_returns_count_nonempty_witness :
    ∃ l, generate .image 3 .medium (fun _ => d0) = .ok l ∧ l.length = 3 ∧ ∀ s ∈ l, s ≠ "" := by
  have hv : validDraw d0 := by norm_num [validDraw, d0]
  exact generate_returns_count_nonempty .image (Or.inl rfl) 3 (by decide) (by decide) .medium
    (fun _ => d0) (fun _ => hv)

/-- C2: `generate` on the "analysis" category always fails with the
unknown-category error (`ValueError("No templates for …")`), for every count,
specificity and draw sequence, and produces no list at all. -/
theorem generate_analysis_fails (count : Nat) (spec : SpecificityLevel)
    (draws : Nat → Draw) :
    generate .analysis count spec draws = .error (.unknownCategory .analysis) := rfl

/-- C3 counterexample: the category "analysis" is in the enumeration but maps to
the empty template list, so not every category maps to a non-empty list. -/
theorem analysis_has_no_templates : templatesFor .analysis = [] := rfl

/-- C3 (amended): every category except "analysis" maps to a list of at least
one template; "analysis" maps to the empty list. -/
theorem templates_nonempty_except_analysis (pt : PromptTypeEnum) :
    (pt = .analysis → templatesFor pt = []) ∧
    (pt ≠ .analysis → 1 ≤ (templatesFor pt).length) := by
  constructor
  · intro h
    subst h
    rfl
  · intro h
    cases pt
    case analysis => exact absurd rfl h
    all_goals decide

/-- Witness for C3's amended theorem at the image category. -/
theorem templates_nonempty_except_analysis_witness :
    1 ≤ (templatesFor PromptTypeEnum.image).length :=
  (templates_nonempty_except_analysis .image).2 (by decide)

/-- C4: at specificity extreme the ratio is 1 and `random.random() < 1` always
holds, so every prompt generated for the workflow category carries a
". Standards: " clause and every prompt generated for the code category carries
a ". Quality: " clause, whatever the draws. -/
theorem generate_extreme_quality_clause (count : Nat) (draws : Nat → Draw)
    (hd : ∀ i, validDraw (draws i)) :
    (∀ l, generate .workflow count .extreme draws = .ok l →
      ∀ s ∈ l, strContainsB s ". Standards: " = true) ∧
    (∀ l, generate .code count .extreme draws = .ok l →
      ∀ s ∈ l, strContainsB s ". Quality: " = true) := by
  constructor
  · intro l hl s hs
    have H : ∀ i, i < count →
        ∃ s, genOne .workflow workflowTemplate [] (specRatio .extreme) (draws i) = .ok s ∧
          strContainsB s ". Standards: " = true := by
      intro i _
      obtain ⟨mods, cons, qual, hm, hqlen, heq⟩ :=
        genOne_shape .workflow workflowTemplate [] (specRatio .extreme) (draws i)
          (fun tm htm => catalog_lengths .workflow tm htm)
          (specRatio_nonneg _) (specRatio_le_one _)
          (le_trans (by norm_num) (hd i).1) (le_trans (hd i).2.1 (by norm_num))
      rw [if_neg (by decide : ¬ (PromptTypeEnum.workflow = PromptTypeEnum.image)),
        if_pos (Or.inl rfl : PromptTypeEnum.workflow = PromptTypeEnum.workflow
          ∨ PromptTypeEnum.workflow = PromptTypeEnum.automation)] at heq
      refine ⟨_, heq, ?_⟩
      apply assembleWorkflowPrompt_standards
      have h1 : (draws i).r01 < specRatio .extreme := by
        have h2 := (hd i).2.2.2
        simpa [specRatio] using h2
      exact List.length_pos.mp (hqlen h1)
    obtain ⟨l', hl', hlen, hP⟩ := genMany_ok
      (fun i => genOne .workflow workflowTemplate [] (specRatio .extreme) (draws i))
      (fun s => strContainsB s ". Standards: " = true) count H
    rw [generate_eq_genMany .workflow workflowTemplate [] rfl count .extreme draws,
      hl'] at hl
    obtain rfl : l' = l := Except.ok.inj hl
    exact hP s hs
  · intro l hl s hs
    have H : ∀ i, i < count →
        ∃ s, genOne .code codeTemplate [] (specRatio .extreme) (draws i) = .ok s ∧
          strContainsB s ". Quality: " = true := by
      intro i _
      obtain ⟨mods, cons, qual, hm, hqlen, heq⟩ :=
        genOne_shape .code codeTemplate [] (specRatio .extreme) (draws i)
          (fun tm htm => catalog_lengths .code tm htm)
          (specRatio_nonneg _) (specRatio_le_one _)
          (le_trans (by norm_num) (hd i).1) (le_trans (hd i).2.1 (by norm_num))
      rw [if_neg (by decide : ¬ (PromptTypeEnum.code = PromptTypeEnum.image)),
        if_neg (by decide : ¬ (PromptTypeEnum.code = PromptTypeEnum.workflow
          ∨ PromptTypeEnum.code = PromptTypeEnum.automation))] at heq
      refine ⟨_, heq, ?_⟩
      apply assembleCodePrompt_quality
      have h1 : (draws i).r01 < specRatio .extreme := by
        have h2 := (hd i).2.2.2
        simpa [specRatio] using h2
      exact List.length_pos.mp (hqlen h1)
    obtain ⟨l', hl', hlen, hP⟩ := genMany_ok
      (fun i => genOne .code codeTemplate [] (specRatio .extreme) (draws i))
      (fun s => strContainsB s ". Quality: " = true) count H
    rw [generate_eq_genMany .code codeTemplate [] rfl count .extreme draws,
      hl'] at hl
    obtain rfl : l' = l := Except.ok.inj hl
    exact hP s hs

/-- Witness for C4 at count 1 with constant draws. -/
theorem generate_extreme_quality_clause_witness :
    (∀ l, generate .workflow 1 .extreme (fun _ => d0) = .ok l →
      ∀ s ∈ l, strContainsB s ". Standards: " = true) ∧
    (∀ l, generate .code 1 .extreme (fun _ => d0) = .ok l →
      ∀ s ∈ l, strContainsB s ". Quality: " = true) := by
  have hv : validDraw d0 := by norm_num [validDraw, d0]
  exact generate_extreme_quality_clause 1 (fun _ => d0) (fun _ => hv)

/-- C5: classification compares the lowercased text to the image keywords
first, then workflow, then code, first match winning, and defaults to image;
in particular an image keyword wins over simultaneously present workflow or
code keywords. -/
theorem detect_prompt_type_precedence (s : String) :
    (anyKeyword imageKeywords s = true → detectPromptType s = .image) ∧
    (anyKeyword imageKeywords s = false → anyKeyword workflowKeywords s = true →
      detectPromptType s = .workflow) ∧
    (anyKeyword imageKeywords s = false → anyKeyword workflowKeywords s = false →
      anyKeyword codeKeywords s = true → detectPromptType s = .code) ∧
    (anyKeyword imageKeywords s = false → anyKeyword workflowKeywords s = false →
      anyKeyword codeKeywords s = false → detectPromptType s = .image) := by
  refine ⟨?_, ?_, ?_, ?_⟩ <;> intros <;> simp_all [detectPromptType]

/-- Witness for C5: "restyle my code process" holds the image keyword "style"
alongside workflow keyword "process" and code keyword "code", and classifies
as image. -/
theorem detect_prompt_type_precedence_witness :
    detectPromptType "restyle my code process" = PromptTypeEnum.image :=
  (detect_prompt_type_precedence "restyle my code process").1 (by decide)

/-- C6: optimizing "make my hair a bowl cut" detects the image category and the
optimized text contains the bowl-cut description substring. -/
theorem optimize_bowl_cut :
    (optimize "make my hair a bowl cut" none).2 = "image" ∧
    strContainsB (optimize "make my hair a bowl cut" none).1
      "straight, even fringe across the forehead" = true := by
  constructor
  · decide
  · decide

/-- C7: optimizing "automate the data backup process" detects the workflow
category and the optimized text contains all four reliability keywords. -/
theorem optimize_backup_process :
    (optimize "automate the data backup process" none).2 = "workflow" ∧
    strContainsB (optimize "automate the data backup process" none).1 "rollback" = true ∧
    strContainsB (optimize "automate the data backup process" none).1 "retry" = true ∧
    strContainsB (optimize "automate the data backup process" none).1 "idempotent" = true ∧
    strContainsB (optimize "automate the data backup process" none).1 "timeout" = true := by
  refine ⟨?_, ?_, ?_, ?_, ?_⟩ <;> decide

/-- C8 counterexample: the sampling primitive used by `generate` does not clamp
an oversized request — `random.sample` raises (modelled `none`) when the sample
size exceeds the population. -/
theorem randomSample_oversize_errors :
    randomSample (["a", "b"] : List String) 3 [0] = none := rfl

/-- C8 (amended): `generate` never requests an oversized sample — with the
uniform draw in [0.3, 0.7] every requested size is within its population — so
no run of `generate` can fail with the sampling error; the code reaches safety
by never exceeding the population, not by clamping. -/
theorem generate_never_sample_error (pt : PromptTypeEnum) (count : Nat)
    (spec : SpecificityLevel) (draws : Nat → Draw) (hd : ∀ i, validDraw (draws i)) :
    generate pt count spec draws ≠ .error .sampleTooLarge := by
  by_cases hpt : pt = .analysis
  · subst hpt
    intro h
    have hgen : generate .analysis count spec draws
        = .error (.unknownCategory .analysis) := rfl
    rw [hgen] at h
    exact absurd (Except.error.inj h) (by decide)
  · obtain ⟨t, ts, hT⟩ : ∃ t ts, templatesFor pt = t :: ts := by
      cases pt
      case analysis => exact absurd rfl hpt
      all_goals exact ⟨_, _, rfl⟩
    have hcat : ∀ tm ∈ t :: ts,
        1 ≤ tm.modifiers.length ∧ 1 ≤ tm.constraints.length ∧ 1 ≤ tm.quality_tokens.length :=
      fun tm htm => catalog_lengths pt tm (by rw [hT]; exact htm)
    obtain ⟨l, hl, -, -⟩ := genMany_ok
      (fun i => genOne pt t ts (specRatio spec) (draws i)) (fun _ => True) count
      (fun i _ => by
        obtain ⟨s, hs, -⟩ := genOne_ok_ne_empty pt t ts spec (draws i) (hd i) hcat
        exact ⟨s, hs, trivial⟩)
    rw [generate_eq_genMany pt t ts hT count spec draws, hl]
    simp

/-- Witness for C8's amended theorem at category image. -/
theorem generate_never_sample_error_witness :
    generate .image 2 .low (fun _ => d0) ≠ .error .sampleTooLarge := by
  have hv : validDraw d0 := by norm_num [validDraw, d0]
  exact generate_never_sample_error .image 2 .low (fun _ => d0) (fun _ => hv)

/-- C9: `optimize` consults no randomness, so two runs on the same input, with
any two random oracles available to the engine, return the identical
(optimized text, detected category) pair. -/
theorem optimize_run_deterministic (draws₁ draws₂ : Nat → Draw) (v : String)
    (c : Option String) :
    optimizeRun draws₁ v c = optimizeRun draws₂ v c := rfl

/-- C10: the modifier count is `max(1, …) ≥ 1`, so the modifier sample drawn in
every iteration of `generate` is non-empty; the assembler fallbacks for an
empty modifier list ("realistic", "on trigger", "function") are therefore
unreachable during generation. -/
theorem selected_modifiers_nonempty (pt : PromptTypeEnum)
    (hpt : pt = .image ∨ pt = .workflow ∨ pt = .automation ∨ pt = .code)
    (tm : PromptTemplate) (htm : tm ∈ templatesFor pt) (spec : SpecificityLevel)
    (d : Draw) (hd : validDraw d) :
    1 ≤ numModifiers tm (specRatio spec) d.u ∧
    ∃ mods, randomSample tm.modifiers (numModifiers tm (specRatio spec) d.u) d.modSel
        = some mods ∧ mods ≠ [] := by
  obtain ⟨hm, -, -⟩ := catalog_lengths pt tm htm
  have hle := numModifiers_le tm (specRatio spec) d.u hm (specRatio_nonneg spec)
    (specRatio_le_one spec) (le_trans (by norm_num) hd.1) (le_trans hd.2.1 (by norm_num))
  refine ⟨numModifiers_pos tm _ _, _, randomSample_eq_some _ _ _ hle, ?_⟩
  have hlen := sampleAux_length (numModifiers tm (specRatio spec) d.u)
    tm.modifiers d.modSel hle
  apply List.length_pos.mp
  rw [hlen]
  exact numModifiers_pos tm _ _

/-- Witness for C10 at the image template with medium specificity. -/
theorem selected_modifiers_nonempty_witness :
    1 ≤ numModifiers imageTemplate (specRatio .medium) d0.u ∧
    ∃ mods, randomSample imageTemplate.modifiers
        (numModifiers imageTemplate (specRatio .medium) d0.u) d0.modSel
        = some mods ∧ mods ≠ [] := by
  have hv : validDraw d0 := by norm_num [validDraw, d0]
  exact selected_modifiers_nonempty .image (Or.inl rfl) imageTemplate
    (List.mem_singleton.mpr rfl) .medium d0 hv

end PromptGen
